import Mathlib

/-!
Verification development for the CodeCompass plan-generation pipeline
(`PlanService`, `AIService` in `src/services`).

The TypeScript code manipulates untyped JavaScript values (results of
`JSON.parse`), so the embedding models a JSON-parseable JavaScript value as
the inductive type `Json` below, together with the fragments of JavaScript
semantics that the code exercises: truthiness, `typeof v === 'object'`,
the `in` operator, property access, `Object.keys`, spread (`{...v}`), the
`String(v)` coercion, and `for`-loop iteration over a possibly non-array
`steps` value (index access plus the `.length` property).

Modelling conventions (each noted where used):
* JSON numbers are modelled as `Int` (the manifests and replies the code
  handles use integral values; fractional doubles are out of scope).
* Objects produced by `JSON.parse` have unique keys (the parser keeps the
  last duplicate), so association-list lookup is used for property access.
* `generateId` (`Date.now` + `Math.random`) is modelled as an abstract
  fresh-id supply `genId : Nat → String`, where `genId k` is the result of
  the k-th `generateId` call made during one entry point.
* `new Date()` is modelled as a timestamp parameter `now : Nat`.
* The ambient `JSON.parse` builtin applied to response/manifest text is
  modelled as an oracle `parse : String → Option Json` (`none` = throw).
-/

/-- A JSON-parseable JavaScript value. -/
inductive Json where
  | null
  | bool (b : Bool)
  | num (n : Int)
  | str (s : String)
  | arr (elems : List Json)
  | obj (fields : List (String × Json))

/-- JavaScript truthiness of a JSON-parseable value: `null`, `false`, `0`
and the empty string are falsy; every object or array is truthy. -/
def jsTruthy : Json → Bool
  | .null => false
  | .bool b => b
  | .num n => n != 0
  | .str s => s != ""
  | .arr _ => true
  | .obj _ => true

/-- `typeof v === 'object'` — true for objects, arrays and `null`. -/
def jsTypeofObject : Json → Bool
  | .null => true
  | .arr _ => true
  | .obj _ => true
  | _ => false

/-- Decimal-digit parse of a string, used for array index property names
(`none` when the string is not a canonical nonempty digit string). -/
def decDigits : List Char → Option Nat
  | [] => none
  | cs => cs.foldl (fun acc c =>
      match acc with
      | none => none
      | some n => if c.isDigit then some (n * 10 + (c.toNat - 48)) else none)
      (some 0)

/-- Property lookup `v[k]` on a JSON-parseable value, `none` meaning
`undefined`. Arrays and strings expose `length` and their indices; other
primitives have no own properties. (Access on `null` throws in JavaScript;
the sites where the code may reach `null` model the throw explicitly.) -/
def jsGetProp : Json → String → Option Json
  | .obj fields, k => fields.lookup k
  | .arr xs, k =>
      if k == "length" then some (.num xs.length)
      else match decDigits k.data with
        | some i => xs.get? i
        | none => none
  | .str s, k =>
      if k == "length" then some (.num s.length)
      else match decDigits k.data with
        | some i => (s.data.get? i).map (fun c => .str (String.singleton c))
        | none => none
  | _, _ => none

/-- `Object.keys(v)` for a non-null JSON-parseable value (objects list
their field names in insertion order; arrays and strings their indices;
other primitives have no own enumerable properties). -/
def jsObjectKeys : Json → List String
  | .obj fields => fields.map (fun p => p.1)
  | .arr xs => (List.range xs.length).map toString
  | .str s => (List.range s.length).map toString
  | _ => []

/-- The JavaScript `in` operator (`k in v`), for object-shaped `v`. -/
def jsHasProp : Json → String → Bool
  | .obj fields, k => (fields.lookup k).isSome
  | .arr xs, k =>
      k == "length" ||
      (match decDigits k.data with
        | some i => decide (i < xs.length)
        | none => false)
  | .str s, k =>
      k == "length" ||
      (match decDigits k.data with
        | some i => decide (i < s.length)
        | none => false)
  | _, _ => false

mutual

/-- The JavaScript `String(v)` coercion on JSON-parseable values:
arrays join their elements with commas (with `null` elements rendered
empty), plain objects render as `[object Object]`. -/
def jsToString : Json → String
  | .null => "null"
  | .bool b => if b then "true" else "false"
  | .num n => toString n
  | .str s => s
  | .obj _ => "[object Object]"
  | .arr xs => jsArrToString xs

/-- Comma-joined rendering of an array's elements (`Array.prototype.join`),
where a `null` element contributes the empty string. -/
def jsArrToString : List Json → String
  | [] => ""
  | [Json.null] => ""
  | [x] => jsToString x
  | Json.null :: rest => "," ++ jsArrToString rest
  | x :: rest => jsToString x ++ "," ++ jsArrToString rest

end

/-- Plan lifecycle status (`Plan.status` in `src/types`). -/
inductive PlanStatus where
  | draft
  | active
  | completed
  | failed
deriving DecidableEq, Repr

/-- `PlanStep` from `src/types`. The `files` value is installed by an
unchecked TypeScript cast (`step.files as string[]`), so at runtime it can
hold arbitrary array elements; it is therefore modelled as `List Json`. -/
structure PlanStep where
  id : String
  description : String
  files : List Json
  order : Nat

/-- `Plan` from `src/types` (`createdAt` is the `new Date()` timestamp). -/
structure Plan where
  id : String
  task : String
  steps : List PlanStep
  createdAt : Nat
  status : PlanStatus

namespace PlanService

/-- `step && typeof step === 'object'` — the normalizer's test for an
object-shaped element (objects and arrays pass; `null` and primitives are
skipped). -/
def objectShaped (j : Json) : Bool :=
  jsTruthy j && jsTypeofObject j

/-- The value of `ToNumber` applied to the `steps.length` property as used
by the loop guard `i < data.steps.length`, clamped to the number of loop
iterations actually executed (`none`/`NaN` and negative values give 0). -/
def toLoopCount : Option Json → Nat
  | none => 0
  | some (.num n) => n.toNat
  | some (.bool b) => if b then 1 else 0
  | some .null => 0
  | some (.str s) =>
      match decDigits s.data with
      | some n => n
      | none => 0
  | some (.arr xs) =>
      match xs with
      | [.num n] => n.toNat
      | _ => 0
  | some (.obj _) => 0

/-- Number of iterations of `for (let i = 0; i < data.steps.length; i++)`
for a non-null `data.steps` value. -/
def iterCount : Json → Nat
  | .arr xs => xs.length
  | .str s => s.length
  | .obj fields => toLoopCount (fields.lookup "length")
  | _ => 0

/-- The element access `data.steps[i]` (`none` = `undefined`). -/
def jsIndex : Json → Nat → Option Json
  | .arr xs, i => xs.get? i
  | .str s, i => (s.data.get? i).map (fun c => .str (String.singleton c))
  | .obj fields, i => fields.lookup (toString i)
  | _, _ => none

/-- The sequence of values visited by the normalizer's `for` loop over
`data.steps`. Accessing `.length` on `null` throws a `TypeError`, modelled
by `Except.error`. -/
def iterElems : Json → Except Unit (List (Option Json))
  | .null => .error ()
  | v => .ok ((List.range (iterCount v)).map (jsIndex v))

/-- The step record pushed for the object-shaped element `j` found at loop
index `i` (body of the `steps.push` call in `parsePlanResponse`). -/
def mkStep (id : String) (i : Nat) (j : Json) : PlanStep :=
  { id := id
    description :=
      match jsGetProp j "description" with
      | some d => jsToString d
      | none => "Step " ++ toString (i + 1)
    files :=
      match jsGetProp j "files" with
      | some (.arr fs) => fs
      | _ => []
    order := i }

/-- The normalizer loop: `elems` are the visited values, `i` the loop
index, `k` the index of the next `generateId` call. Elements that are not
object-shaped are skipped without breaking iteration. -/
def buildStepsAux (genId : Nat → String) :
    List (Option Json) → Nat → Nat → List PlanStep
  | [], _, _ => []
  | e :: rest, i, k =>
      match e with
      | some j =>
          if objectShaped j then
            mkStep (genId k) i j :: buildStepsAux genId rest (i + 1) (k + 1)
          else
            buildStepsAux genId rest (i + 1) k
      | none => buildStepsAux genId rest (i + 1) k

/-- `PlanService.parsePlanResponse`. `Except.error` models an uncaught
JavaScript exception (reachable when `response.steps` is `null`, because
the loop guard then evaluates `null.length`). -/
def parsePlanResponse (genId : Nat → String) (task : String)
    (response : Json) (now : Nat) : Except Unit Plan :=
  let plan : Plan :=
    { id := genId 0, task := task, steps := [], createdAt := now,
      status := .draft }
  if jsTruthy response && jsTypeofObject response &&
      jsHasProp response "steps" then
    match iterElems ((jsGetProp response "steps").getD .null) with
    | .error e => .error e
    | .ok elems =>
        let steps := buildStepsAux genId elems 0 1
        .ok { plan with
                steps := steps
                status := if steps.length > 0 then .active else .draft }
  else
    .ok plan

end PlanService

/-- Substring search on character lists (`haystack` begins with `needle`). -/
def charsBeginWith : List Char → List Char → Bool
  | _, [] => true
  | [], _ :: _ => false
  | c :: cs, p :: ps => c == p && charsBeginWith cs ps

/-- `String.prototype.includes` restricted to character lists. -/
def charsContain : List Char → List Char → Bool
  | [], needle => needle.isEmpty
  | c :: cs, needle => charsBeginWith (c :: cs) needle || charsContain cs needle

/-- `error.message.includes('fetch')` from `AIService.handleError`. -/
def includesFetch (s : String) : Bool :=
  charsContain s.data "fetch".data

/-- The closed error taxonomy (`AIError.type` in `src/types`). -/
inductive AIErrorType where
  | authentication
  | rate_limit
  | bad_request
  | network
  | unknown
deriving DecidableEq, Repr

/-- A classified error (`AIError` in `src/types`). The `original` field — a
reference to the underlying JavaScript error object kept for diagnostics —
is not modelled. -/
structure AIError where
  message : String
  code : Option String := none
  type : AIErrorType
deriving DecidableEq, Repr

/-- The JavaScript values that can reach the `catch` in
`AIService.generatePlan`:
* `apiError status message code` — an `OpenAI.APIError` carrying the
  provider's HTTP status;
* `typeError message` — a `TypeError` (fetch-level transport failures
  surface as a `TypeError` whose message mentions `fetch`);
* `errorObj message` — any other `Error` instance;
* `plainValue s` — a thrown non-`Error` value, with `s = String(value)`. -/
inductive JsError where
  | apiError (status : Nat) (message : String) (code : Option String)
  | typeError (message : String)
  | errorObj (message : String)
  | plainValue (s : String)

namespace AIService

/-- `AIService.handleError` — classifies every caught failure into exactly
one `AIError`. -/
def handleError : JsError → AIError
  | .apiError status msg code =>
      if status = 401 then
        { message := "Invalid API key. Please check your CodeCompass API key in settings.",
          code := some "AUTH_ERROR", type := .authentication }
      else if status = 429 then
        { message := "Rate limit exceeded. Please wait a moment and try again.",
          code := some "RATE_LIMIT", type := .rate_limit }
      else if status = 400 then
        { message := "Invalid request. Please check your configuration.",
          code := some "BAD_REQUEST", type := .bad_request }
      else
        { message := "API error (" ++ toString status ++ "): " ++ msg,
          code := code, type := .unknown }
  | .typeError msg =>
      if includesFetch msg then
        { message := "Network error: Unable to reach the AI service. Check your connection and endpoint.",
          code := some "NETWORK_ERROR", type := .network }
      else
        { message := "Unexpected error: " ++ msg, type := .unknown }
  | .errorObj msg =>
      { message := "Unexpected error: " ++ msg, type := .unknown }
  | .plainValue s =>
      { message := "Unexpected error: " ++ s, type := .unknown }

/-- `AIService.createError` — builds the plain `AIError` object thrown for
the missing-content case. -/
def createError (message : String) : AIError :=
  { message := message, type := .unknown }

/-- `String(v)` for a thrown plain `AIError` object: a plain object (not an
`Error` instance) stringifies to `[object Object]`. -/
def jsStringOfAIError (_ : AIError) : String :=
  "[object Object]"

/-- `message.content` of one choice of the chat-completion reply
(`string | null` in the wire shape; `none` models `null`). -/
structure ChoiceMessage where
  content : Option String

/-- One element of `response.choices` (`message` may be absent). -/
structure Choice where
  message : Option ChoiceMessage

/-- The provider reply consumed by `AIService.generatePlan`. -/
structure CompletionResponse where
  choices : List Choice

/-- `response.choices[0]?.message?.content` with optional chaining. -/
def contentOf (resp : CompletionResponse) : Option String :=
  (resp.choices.head?.bind Choice.message).bind ChoiceMessage.content

/-- `AIService.generatePlan`, starting from the outcome of the HTTP call
(`outcome`): extract the first choice's text, raise through `handleError`
when content is absent or empty (`!content`), else strict-JSON-parse it,
falling back to the `{raw: <text>}` wrapper. The thrown `createError`
object is itself re-classified by `handleError` in the `catch`. -/
def generatePlan (parse : String → Option Json)
    (outcome : Except JsError CompletionResponse) : Except AIError Json :=
  match outcome with
  | .error e => .error (handleError e)
  | .ok resp =>
      match contentOf resp with
      | some content =>
          if content != "" then
            match parse content with
            | some parsed => .ok parsed
            | none => .ok (.obj [("raw", .str content)])
          else
            .error (handleError (.plainValue (jsStringOfAIError
              (createError "No response content received from AI service"))))
      | none =>
          .error (handleError (.plainValue (jsStringOfAIError
            (createError "No response content received from AI service"))))

end AIService

/-- The three context-gathering flags (`generatePlan`/`gatherContext`
options object; an absent field is falsy, hence `false`). -/
structure PlanOptions where
  includeActiveFile : Bool := false
  includeWorkspaceStructure : Bool := false
  includeDependencies : Bool := false

/-- Optional-chaining read `options?.flag` for the optional options
argument. -/
def getOpt (options : Option PlanOptions) (f : PlanOptions → Bool) : Bool :=
  match options with
  | some o => f o
  | none => false

/-- Snapshot of the active editor document (`path`, full text, language
identifier). -/
structure TextDocument where
  path : String
  content : String
  language : String

/-- `vscode.FileType` as far as `getWorkspaceStructure` distinguishes it. -/
inductive FsEntryType where
  | file
  | directory
  | symbolicLink
  | other
deriving DecidableEq

/-- The workspace collaborator visible to `PlanService`: root path, active
editor, directory listing of the root (`Except.error` = enumeration
failure), and the text of `<root>/package.json` (`Except.error` = read
failure). -/
structure Workspace where
  rootPath : Option String
  activeEditor : Option TextDocument
  readDir : Except Unit (List (String × FsEntryType))
  readPackageJson : Except Unit String

/-- The `dependencies` field of `Context`: verbatim copies of the parsed
manifest's `dependencies`/`devDependencies` values (both inner fields are
optional in the `Context` type). -/
structure DepsInfo where
  dependencies : Option Json := none
  devDependencies : Option Json := none

/-- `Context` from `src/types`. -/
structure Context where
  workspaceRoot : Option String
  activeFile : Option TextDocument := none
  workspaceStructure : Option (List String) := none
  techStack : Option String := none
  dependencies : Option DepsInfo := none

namespace PlanService

/-- `PlanService.getWorkspaceStructure`: top-level directory names of the
workspace root, in listing order; empty when there is no root or the
listing fails. -/
def getWorkspaceStructure (env : Workspace) : List String :=
  match env.rootPath with
  | none => []
  | some _ =>
      match env.readDir with
      | .error _ => []
      | .ok entries =>
          (entries.filter (fun e => e.2 == FsEntryType.directory)).map
            (fun e => e.1)

/-- The object `{...pkgJson.dependencies, ...pkgJson.devDependencies}`
built by `detectTechStack`: spread of a JSON-parseable value contributes
its own enumerable properties (objects their fields, arrays and strings
their indices, other primitives nothing). -/
def spreadFields : Json → List (String × Json)
  | .obj fields => fields
  | .arr xs => (xs.enum).map (fun p => (toString p.1, p.2))
  | .str s =>
      (s.data.enum).map (fun p => (toString p.1, .str (String.singleton p.2)))
  | _ => []

/-- Property access on an object built by successive spreads: the later
assignment wins, so lookup scans from the right. -/
def propLookup (fields : List (String × Json)) (k : String) : Option Json :=
  fields.reverse.lookup k

/-- Truthiness of `allDeps.<k>` on the merged dependency object. -/
def propTruthy (fields : List (String × Json)) (k : String) : Bool :=
  match propLookup fields k with
  | some v => jsTruthy v
  | none => false

/-- The merged dependency object of `detectTechStack`
(`{...pkgJson.dependencies, ...pkgJson.devDependencies}`). -/
def mkMergedDeps (pkgJson : Json) : List (String × Json) :=
  spreadFields ((jsGetProp pkgJson "dependencies").getD .null) ++
  spreadFields ((jsGetProp pkgJson "devDependencies").getD .null)

/-- `PlanService.detectTechStack`: first-match cascade of truthiness tests
on the merged dependency object. -/
def detectTechStack (pkgJson : Json) : String :=
  let allDeps := mkMergedDeps pkgJson
  if propTruthy allDeps "react" then "React"
  else if propTruthy allDeps "vue" then "Vue.js"
  else if propTruthy allDeps "angular" || propTruthy allDeps "@angular/core" then "Angular"
  else if propTruthy allDeps "svelte" then "Svelte"
  else if propTruthy allDeps "next" then "Next.js"
  else if propTruthy allDeps "node" then "Node.js"
  else if propTruthy allDeps "express" then "Express.js"
  else if propTruthy allDeps "nest" then "NestJS"
  else if propTruthy allDeps "typescript" then "TypeScript"
  else if propTruthy allDeps "storybook" then "Storybook"
  else "JavaScript/TypeScript"

/-- The manifest-derived part of the dependencies branch of
`gatherContext`: the two property reads `pkgJson.dependencies || {}` /
`pkgJson.devDependencies || {}` and the `detectTechStack` call. Property
access on a `null` manifest (`JSON.parse("null")`) throws, which the
surrounding `try` swallows — modelled by `Except.error`. -/
def depsOfPkg (pkgJson : Json) : Except Unit (DepsInfo × String) :=
  match pkgJson with
  | .null => .error ()
  | _ =>
      let d :=
        match jsGetProp pkgJson "dependencies" with
        | some v => if jsTruthy v then v else .obj []
        | none => .obj []
      let dd :=
        match jsGetProp pkgJson "devDependencies" with
        | some v => if jsTruthy v then v else .obj []
        | none => .obj []
      .ok ({ dependencies := some d, devDependencies := some dd },
           detectTechStack pkgJson)

/-- `PlanService.gatherContext`: builds the `Context` snapshot; every
sub-step failure (file read, JSON parse, property access on a null
manifest) is swallowed and leaves the corresponding fields absent. The
`task` argument is accepted but unused, as in the source. -/
def gatherContext (_task : String) (options : Option PlanOptions)
    (env : Workspace) (parse : String → Option Json) : Context :=
  let ctx : Context := { workspaceRoot := env.rootPath }
  let ctx :=
    if getOpt options PlanOptions.includeActiveFile then
      match env.activeEditor with
      | some doc => { ctx with activeFile := some doc }
      | none => ctx
    else ctx
  let ctx :=
    if getOpt options PlanOptions.includeWorkspaceStructure then
      { ctx with workspaceStructure := some (getWorkspaceStructure env) }
    else ctx
  if getOpt options PlanOptions.includeDependencies then
    match env.rootPath with
    | none => ctx
    | some _ =>
        match env.readPackageJson with
        | .error _ => ctx
        | .ok text =>
            match parse text with
            | none => ctx
            | some pkgJson =>
                match depsOfPkg pkgJson with
                | .error _ => ctx
                | .ok (deps, stack) =>
                    { ctx with dependencies := some deps,
                               techStack := some stack }
  else ctx

/-- The `Task:` header of `buildPrompt`, always emitted first. -/
def taskSection (task : String) : String :=
  "Task: " ++ task ++ "\n\n"

/-- The active-file block of `buildPrompt` (`if (context.activeFile)`;
an object field is always truthy when present). -/
def activeFileSection (context : Context) : String :=
  match context.activeFile with
  | some af =>
      "Current active file: " ++ af.path ++ "\n" ++
      "Language: " ++ af.language ++ "\n\n" ++
      "--- File Content ---\n" ++ af.content ++ "\n--- End File ---\n\n"
  | none => ""

/-- The `Tech Stack:` line of `buildPrompt` (`if (context.techStack)`;
a present-but-empty string is falsy and emits nothing). -/
def techStackSection (context : Context) : String :=
  match context.techStack with
  | some ts => if ts != "" then "Tech Stack: " ++ ts ++ "\n\n" else ""
  | none => ""

/-- The `Dependencies:` line of `buildPrompt`
(`if (context.dependencies?.dependencies)`): the first 10 `Object.keys`
names comma-joined, with a `...` marker when more than 10 exist. -/
def depsSection (context : Context) : String :=
  match context.dependencies with
  | some d =>
      match d.dependencies with
      | some v =>
          if jsTruthy v then
            "Dependencies: " ++
              String.intercalate ", " ((jsObjectKeys v).take 10) ++
              (if (jsObjectKeys v).length > 10 then "..." else "") ++ "\n\n"
          else ""
      | none => ""
  | none => ""

/-- `PlanService.buildPrompt`: deterministic concatenation of the `Task`
header and the optional active-file, tech-stack and dependencies sections
(each guarded by the truthiness of its source field). -/
def buildPrompt (task : String) (context : Context) : String :=
  taskSection task ++
    (activeFileSection context ++ (techStackSection context ++ depsSection context))

/-- `PlanService.generatePlan`: gather context, build the prompt, call the
AI service, normalize; any stage failure is caught and converted into a
terminal `failed` plan. Total by construction — no exception escapes. -/
def generatePlan (genId : Nat → String) (task : String)
    (options : Option PlanOptions) (env : Workspace)
    (parse : String → Option Json)
    (outcome : Except JsError AIService.CompletionResponse)
    (now : Nat) : Plan :=
  let failedPlan : Plan :=
    { id := genId 0, task := task, steps := [], createdAt := now,
      status := .failed }
  let context := gatherContext task options env parse
  let _prompt := buildPrompt task context
  match AIService.generatePlan parse outcome with
  | .error _ => failedPlan
  | .ok response =>
      match parsePlanResponse genId task response now with
      | .ok plan => plan
      | .error _ => failedPlan

/-- Reference formulation of the normalizer loop on an index/element list:
one step per pair, `order` taken from the pair's index, ids drawn from the
supply starting at `k`. -/
def normStepsAux (genId : Nat → String) (k : Nat) :
    List (Nat × Json) → List PlanStep
  | [] => []
  | (i, e) :: rest => mkStep (genId k) i e :: normStepsAux genId (k + 1) rest

/-- Reference formulation of the normalized steps of an array-valued
`raw.steps`: enumerate, keep the object-shaped elements, build one step
per survivor with `order` equal to its original index. -/
def normSteps (genId : Nat → String) (xs : List Json) : List PlanStep :=
  normStepsAux genId 1 ((xs.enum).filter (fun q => objectShaped q.2))

/-- Whether a visited loop value produces a step (`undefined` never does). -/
def elemShaped : Option Json → Bool
  | some j => objectShaped j
  | none => false

/-- Count of object-shaped values among the values visited by the
normalizer loop over a non-null `steps` value. -/
def countShapedElems (v : Json) : Nat :=
  ((List.range (iterCount v)).map (jsIndex v)).countP elemShaped

/-- Count of object-shaped elements of `raw.steps`, zero when `raw` is not
object-shaped or has no `steps` property. -/
def objElemCount (raw : Json) : Nat :=
  if jsTruthy raw && jsTypeofObject raw && jsHasProp raw "steps" then
    countShapedElems ((jsGetProp raw "steps").getD .null)
  else 0

/-- Outcome of the manifest-reading part of the dependencies branch of
`gatherContext`: `none` when there is no workspace root, the read fails,
the parse fails, or the parsed manifest is `null` (property access throws);
otherwise the `DepsInfo` and tech-stack label that get installed. -/
def depOutcome (env : Workspace) (parse : String → Option Json) :
    Option (DepsInfo × String) :=
  match env.rootPath with
  | none => none
  | some _ =>
      match env.readPackageJson with
      | .error _ => none
      | .ok text =>
          match parse text with
          | none => none
          | some pkgJson =>
              match depsOfPkg pkgJson with
              | .error _ => none
              | .ok pr => some pr

/-- Whether `raw` reaches the normalizer's steps branch with a `null`
`steps` value — the one input shape on which the loop guard throws. -/
def stepsIsNull (raw : Json) : Bool :=
  jsTruthy raw && jsTypeofObject raw && jsHasProp raw "steps" &&
    (match (jsGetProp raw "steps").getD .null with
     | .null => true
     | _ => false)

end PlanService

/-- Step count of a normalizer outcome (`none` when it raised). -/
def exceptStepsLen : Except Unit Plan → Option Nat
  | .ok p => some p.steps.length
  | .error _ => none

/-- Classified-error kind of a completion outcome (`none` on success). -/
def errTypeOf : Except AIError Json → Option AIErrorType
  | .error e => some e.type
  | .ok _ => none

/-- The spec's tech-stack priority table: key alternatives in fixed
priority order, with the label each one yields. -/
def stackTable : List (List String × String) :=
  [(["react"], "React"),
   (["vue"], "Vue.js"),
   (["angular", "@angular/core"], "Angular"),
   (["svelte"], "Svelte"),
   (["next"], "Next.js"),
   (["node"], "Node.js"),
   (["express"], "Express.js"),
   (["nest"], "NestJS"),
   (["typescript"], "TypeScript"),
   (["storybook"], "Storybook")]

/-- Modelled from the spec's words: first-match scan of the priority
table under a presence predicate, defaulting to `"JavaScript/TypeScript"`.
Used to compare the code's `detectTechStack` against the spec's
first-match-over-key-set description. -/
def firstMatchLabel (present : String → Bool) :
    List (List String × String) → String
  | [] => "JavaScript/TypeScript"
  | (ks, lab) :: rest =>
      if ks.any present then lab else firstMatchLabel present rest

/-- Key-set membership in the merged dependency object — the presence
notion used by the spec's words ("scanning the merged key set"). -/
def mergedHasKey (pkgJson : Json) (k : String) : Bool :=
  ((PlanService.mkMergedDeps pkgJson).map (fun p => p.1)).contains k

/-- Concrete fresh-id supply used by witnesses. -/
def genIdDefault : Nat → String := fun n => toString n

open PlanService

theorem range_map_get (xs : List Json) :
    (List.range xs.length).map (fun i => xs.get? i) = xs.map some := by
  induction xs with
  | nil => rfl
  | cons x t ih =>
      rw [List.length_cons, List.range_succ_eq_map, List.map_cons, List.map_map]
      simp only [List.get?_cons_zero, List.map_cons, Function.comp_def,
        List.get?_cons_succ]
      rw [ih]

theorem buildStepsAux_map_some (genId : Nat → String) (xs : List Json) :
    ∀ i k, buildStepsAux genId (xs.map some) i k =
      normStepsAux genId k
        ((List.enumFrom i xs).filter (fun q => objectShaped q.2)) := by
  induction xs with
  | nil => intro i k; rfl
  | cons x t ih =>
      intro i k
      simp only [List.map_cons, List.enumFrom_cons, List.filter_cons]
      cases h : objectShaped x with
      | true =>
          simp only [buildStepsAux, h, if_true, normStepsAux]
          rw [ih]
      | false =>
          simp only [buildStepsAux, h, Bool.false_eq_true, if_false]
          rw [ih]

theorem buildStepsAux_length (genId : Nat → String)
    (elems : List (Option Json)) :
    ∀ i k, (buildStepsAux genId elems i k).length = elems.countP elemShaped := by
  induction elems with
  | nil => intro i k; rfl
  | cons e rest ih =>
      intro i k
      cases e with
      | none => simp [buildStepsAux, List.countP_cons, elemShaped, ih]
      | some j =>
          cases h : objectShaped j with
          | true => simp [buildStepsAux, h, List.countP_cons, elemShaped, ih]
          | false => simp [buildStepsAux, h, List.countP_cons, elemShaped, ih]

theorem mem_enumFrom_get (xs : List Json) :
    ∀ (n i : Nat) (e : Json), (i, e) ∈ List.enumFrom n xs →
      n ≤ i ∧ xs.get? (i - n) = some e := by
  induction xs with
  | nil => intro n i e h; simp [List.enumFrom] at h
  | cons x t ih =>
      intro n i e h
      rw [List.enumFrom_cons] at h
      rcases List.mem_cons.mp h with h1 | h2
      · obtain ⟨rfl, rfl⟩ := Prod.mk.injEq .. ▸ And.intro
          (congrArg Prod.fst h1) (congrArg Prod.snd h1)
        exact ⟨Nat.le_refl _, by rw [Nat.sub_self]; rfl⟩
      · obtain ⟨hle, hget⟩ := ih (n + 1) i e h2
        refine ⟨by omega, ?_⟩
        have hidx : i - n = (i - (n + 1)) + 1 := by omega
        rw [hidx, List.get?_cons_succ]
        exact hget

theorem mem_normStepsAux (genId : Nat → String) (l : List (Nat × Json)) :
    ∀ k, ∀ s ∈ normStepsAux genId k l,
      ∃ e k2, (s.order, e) ∈ l ∧ s = mkStep (genId k2) s.order e := by
  induction l with
  | nil => intro k s hs; simp [normStepsAux] at hs
  | cons p rest ih =>
      obtain ⟨i, e⟩ := p
      intro k s hs
      rcases List.mem_cons.mp hs with h1 | h2
      · refine ⟨e, k, ?_, ?_⟩
        · rw [h1]; exact List.mem_cons_self _ _
        · rw [h1]; rfl
      · obtain ⟨e2, k2, hmem, hs2⟩ := ih (k + 1) s h2
        exact ⟨e2, k2, List.mem_cons_of_mem _ hmem, hs2⟩

theorem normStepsAux_map_order (genId : Nat → String)
    (l : List (Nat × Json)) :
    ∀ k, (normStepsAux genId k l).map (fun s => s.order) =
      l.map (fun q => q.1) := by
  induction l with
  | nil => intro k; rfl
  | cons p rest ih =>
      obtain ⟨i, e⟩ := p
      intro k
      simp only [normStepsAux, List.map_cons, mkStep]
      rw [ih]

theorem getProp_none_of_hasProp_false (j : Json) (k : String)
    (hshape : objectShaped j = true) (h : jsHasProp j k = false) :
    jsGetProp j k = none := by
  cases j with
  | null => simp [objectShaped, jsTruthy] at hshape
  | bool b => simp [objectShaped, jsTypeofObject] at hshape
  | num n => simp [objectShaped, jsTypeofObject] at hshape
  | str s => simp [objectShaped, jsTypeofObject] at hshape
  | obj fields =>
      simp only [jsHasProp] at h
      cases hl : List.lookup k fields with
      | none => simpa [jsGetProp] using hl
      | some v => rw [hl] at h; simp at h
  | arr xs =>
      simp only [jsHasProp, Bool.or_eq_false_iff] at h
      obtain ⟨hlen, hidx⟩ := h
      simp only [jsGetProp, hlen, Bool.false_eq_true, if_false]
      cases hd : decDigits k.data with
      | none => rfl
      | some i =>
          rw [hd] at hidx
          simp only [decide_eq_false_iff_not, Nat.not_lt] at hidx
          simpa using List.get?_eq_none.mpr hidx

theorem iterElems_ne_null (v : Json) (h : v ≠ Json.null) :
    iterElems v = .ok ((List.range (iterCount v)).map (jsIndex v)) := by
  cases v <;> first | exact absurd rfl h | rfl

theorem parsePlanResponse_arr (genId : Nat → String) (task : String)
    (xs : List Json) (now : Nat) :
    parsePlanResponse genId task (Json.obj [("steps", Json.arr xs)]) now =
      .ok { id := genId 0, task := task, steps := normSteps genId xs,
            createdAt := now,
            status := if (normSteps genId xs).length > 0 then .active
                      else .draft } := by
  have hkey : buildStepsAux genId
      ((List.range xs.length).map (jsIndex (Json.arr xs))) 0 1 =
      normSteps genId xs := by
    rw [show jsIndex (Json.arr xs) = fun i => xs.get? i from rfl,
      range_map_get, buildStepsAux_map_some]
    rfl
  have hdef : parsePlanResponse genId task
      (Json.obj [("steps", Json.arr xs)]) now =
      .ok { id := genId 0, task := task,
            steps := buildStepsAux genId
              ((List.range xs.length).map (jsIndex (Json.arr xs))) 0 1,
            createdAt := now,
            status := if (buildStepsAux genId
                ((List.range xs.length).map (jsIndex (Json.arr xs))) 0 1).length > 0
              then .active else .draft } := rfl
  rw [hdef, hkey]

/-- C5: on an array-valued `raw.steps`, the normalizer produces exactly the
steps of the reference normalization `normSteps`; each produced step's
`order` is the zero-based index of its source element (the orders list the
indices of the object-shaped elements in sequence order, never a value
from the source object), its `description` defaults to `"Step {index+1}"`
when the source element has no `description` property, and the plan's
status is `active` exactly when the steps sequence is non-empty (`draft`
otherwise). -/
theorem C5_normalizer_order_description_status (genId : Nat → String)
    (task : String) (xs : List Json) (now : Nat) :
    parsePlanResponse genId task (Json.obj [("steps", Json.arr xs)]) now =
      .ok { id := genId 0, task := task, steps := normSteps genId xs,
            createdAt := now,
            status := if (normSteps genId xs).length > 0 then .active
                      else .draft } ∧
    (normSteps genId xs).map (fun s => s.order) =
      ((xs.enum).filter (fun q => objectShaped q.2)).map (fun q => q.1) ∧
    (∀ s ∈ normSteps genId xs, ∃ e, xs.get? s.order = some e ∧
      objectShaped e = true ∧
      (jsHasProp e "description" = false →
        s.description = "Step " ++ toString (s.order + 1))) ∧
    ((if (normSteps genId xs).length > 0 then PlanStatus.active
        else PlanStatus.draft) = PlanStatus.active ↔
      normSteps genId xs ≠ []) := by
  refine ⟨parsePlanResponse_arr genId task xs now,
    normStepsAux_map_order genId _ 1, ?_, ?_⟩
  · intro s hs
    obtain ⟨e, k2, hmem, hse⟩ := mem_normStepsAux genId _ 1 s hs
    have hf := List.mem_filter.mp hmem
    have hob : objectShaped e = true := by simpa using hf.2
    have hen := mem_enumFrom_get xs 0 s.order e hf.1
    refine ⟨e, by simpa using hen.2, hob, ?_⟩
    intro hdesc
    have hget := getProp_none_of_hasProp_false e "description" hob hdesc
    rw [hse]
    simp [mkStep, hget]
  · cases hn : normSteps genId xs with
    | nil => simp [hn]
    | cons a l => simp [hn]

/-- Witness for C5 at the spec's example `{steps: [{}, {}, {}]}`. -/
theorem C5_witness :
    parsePlanResponse genIdDefault "t"
        (Json.obj [("steps", Json.arr [Json.obj [], Json.obj [], Json.obj []])]) 0 =
      .ok { id := "0", task := "t",
            steps := [{ id := "1", description := "Step 1", files := [], order := 0 },
                      { id := "2", description := "Step 2", files := [], order := 1 },
                      { id := "3", description := "Step 3", files := [], order := 2 }],
            createdAt := 0, status := .active } :=
  ((C5_normalizer_order_description_status genIdDefault "t"
      [Json.obj [], Json.obj [], Json.obj []] 0).1).trans (by rfl)

/-- C1 counterexample: the normalizer is not total — on the JSON-parseable
input `{steps: null}` the loop guard evaluates `null.length` and raises a
`TypeError` instead of returning an empty-steps plan. -/
theorem C1_counterexample_null_steps :
    parsePlanResponse genIdDefault "t" (Json.obj [("steps", Json.null)]) 0 =
      .error () := rfl

theorem C1_aux (genId : Nat → String) (task : String) (raw v : Json)
    (now : Nat)
    (hb : (jsTruthy raw && jsTypeofObject raw && jsHasProp raw "steps") = true)
    (hv : (jsGetProp raw "steps").getD .null = v) (hnn : v ≠ Json.null) :
    (stepsIsNull raw = true →
      parsePlanResponse genId task raw now = .error ()) ∧
    (stepsIsNull raw = false →
      exceptStepsLen (parsePlanResponse genId task raw now) =
        some (objElemCount raw)) := by
  have hmatch : (match v with | Json.null => true | _ => false) = false := by
    cases v <;> first | exact absurd rfl hnn | rfl
  have hfalse : stepsIsNull raw = false := by
    simp only [stepsIsNull, hb, hv, hmatch, Bool.true_and]
  refine ⟨fun ht => absurd (hfalse.symm.trans ht) Bool.false_ne_true,
    fun _ => ?_⟩
  simp only [parsePlanResponse, hb, if_true, hv, iterElems_ne_null v hnn,
    exceptStepsLen, objElemCount, countShapedElems]
  rw [buildStepsAux_length]

/-- C1 amended: the normalizer never raises and returns a plan with one
step per object-shaped element of `raw.steps` (zero when `raw` is not
object-shaped or has no `steps` property), EXCEPT on inputs whose `steps`
property is `null`, where the loop guard's `null.length` access raises a
`TypeError` (caught upstream by the orchestrator). -/
theorem C1_normalizer_totality (genId : Nat → String) (task : String)
    (raw : Json) (now : Nat) :
    (stepsIsNull raw = true →
      parsePlanResponse genId task raw now = .error ()) ∧
    (stepsIsNull raw = false →
      exceptStepsLen (parsePlanResponse genId task raw now) =
        some (objElemCount raw)) := by
  cases hb : (jsTruthy raw && jsTypeofObject raw && jsHasProp raw "steps") with
  | false =>
      refine ⟨fun h => ?_, fun _ => ?_⟩
      · rw [stepsIsNull, hb] at h
        simp at h
      · simp only [parsePlanResponse, hb, Bool.false_eq_true, if_false,
          exceptStepsLen, objElemCount]
        rfl
  | true =>
      cases hv : (jsGetProp raw "steps").getD .null with
      | null =>
          refine ⟨fun _ => ?_, fun h => ?_⟩
          · simp only [parsePlanResponse, hb, if_true, hv, iterElems]
          · rw [stepsIsNull, hb, hv] at h
            simp at h
      | bool b => exact C1_aux genId task raw _ now hb hv (by simp)
      | num n => exact C1_aux genId task raw _ now hb hv (by simp)
      | str s => exact C1_aux genId task raw _ now hb hv (by simp)
      | arr xs => exact C1_aux genId task raw _ now hb hv (by simp)
      | obj fields => exact C1_aux genId task raw _ now hb hv (by simp)

/-- Witness for C1's amended totality statement on a mixed steps array
(`{steps: [{}, "x", [], null, 3]}`): three object-shaped elements. -/
theorem C1_totality_witness :
    exceptStepsLen (parsePlanResponse genIdDefault "t"
      (Json.obj [("steps",
        Json.arr [Json.obj [], Json.str "x", Json.arr [], Json.null,
          Json.num 3])]) 0) = some 2 :=
  ((C1_normalizer_totality genIdDefault "t"
      (Json.obj [("steps",
        Json.arr [Json.obj [], Json.str "x", Json.arr [], Json.null,
          Json.num 3])]) 0).2 (by rfl)).trans (by rfl)

/-- C9: an array element of `raw.steps` (here `[]`, or any array `ys`)
passes the `step && typeof step === 'object'` test and produces a step
with the default description `"Step 1"` and empty `files`, while string,
number, `null` and boolean elements are skipped without producing steps. -/
theorem C9_array_element_is_object_shaped (genId : Nat → String)
    (task : String) (ys : List Json) (now : Nat) :
    parsePlanResponse genId task
        (Json.obj [("steps", Json.arr [Json.arr ys])]) now =
      .ok { id := genId 0, task := task,
            steps := [{ id := genId 1, description := "Step 1", files := [],
                        order := 0 }],
            createdAt := now, status := .active } ∧
    parsePlanResponse genId task
        (Json.obj [("steps", Json.arr [Json.str "x"])]) now =
      .ok { id := genId 0, task := task, steps := [], createdAt := now,
            status := .draft } ∧
    parsePlanResponse genId task
        (Json.obj [("steps", Json.arr [Json.num 3])]) now =
      .ok { id := genId 0, task := task, steps := [], createdAt := now,
            status := .draft } ∧
    parsePlanResponse genId task
        (Json.obj [("steps", Json.arr [Json.null])]) now =
      .ok { id := genId 0, task := task, steps := [], createdAt := now,
            status := .draft } ∧
    parsePlanResponse genId task
        (Json.obj [("steps", Json.arr [Json.bool true])]) now =
      .ok { id := genId 0, task := task, steps := [], createdAt := now,
            status := .draft } :=
  ⟨rfl, rfl, rfl, rfl, rfl⟩

/-- C3: every failure reaching the completion client's catch is classified
into exactly one kind of the closed taxonomy: HTTP 401 → `authentication`,
HTTP 429 → `rate_limit`, HTTP 400 → `bad_request`, any other provider
status → `unknown` with the status code and provider message embedded in
the message, a fetch-level transport failure (a `TypeError` mentioning
`fetch`, not an HTTP response) → `network`, and any other exception →
`unknown` with the underlying message embedded. -/
theorem C3_handleError_classification :
    (∀ m c, AIService.handleError (.apiError 401 m c) =
      { message := "Invalid API key. Please check your CodeCompass API key in settings.",
        code := some "AUTH_ERROR", type := .authentication }) ∧
    (∀ m c, AIService.handleError (.apiError 429 m c) =
      { message := "Rate limit exceeded. Please wait a moment and try again.",
        code := some "RATE_LIMIT", type := .rate_limit }) ∧
    (∀ m c, AIService.handleError (.apiError 400 m c) =
      { message := "Invalid request. Please check your configuration.",
        code := some "BAD_REQUEST", type := .bad_request }) ∧
    (∀ s m c, s ≠ 401 → s ≠ 429 → s ≠ 400 →
      AIService.handleError (.apiError s m c) =
        { message := "API error (" ++ toString s ++ "): " ++ m,
          code := c, type := .unknown }) ∧
    (∀ m, includesFetch m = true → AIService.handleError (.typeError m) =
      { message := "Network error: Unable to reach the AI service. Check your connection and endpoint.",
        code := some "NETWORK_ERROR", type := .network }) ∧
    (∀ m, includesFetch m = false → AIService.handleError (.typeError m) =
      { message := "Unexpected error: " ++ m, code := none, type := .unknown }) ∧
    (∀ m, AIService.handleError (.errorObj m) =
      { message := "Unexpected error: " ++ m, code := none, type := .unknown }) ∧
    (∀ s, AIService.handleError (.plainValue s) =
      { message := "Unexpected error: " ++ s, code := none, type := .unknown }) := by
  refine ⟨fun m c => rfl, fun m c => rfl, fun m c => rfl, ?_, ?_, ?_,
    fun m => rfl, fun s => rfl⟩
  · intro s m c h1 h2 h3
    simp only [AIService.handleError, if_neg h1, if_neg h2, if_neg h3]
  · intro m h
    simp only [AIService.handleError, h, if_true]
  · intro m h
    simp only [AIService.handleError, h, Bool.false_eq_true, if_false]

/-- Witness for C3 at an unclassified status, a fetch transport failure,
and a non-fetch `TypeError`. -/
theorem C3_classification_witness :
    AIService.handleError (.apiError 503 "Service overloaded" none) =
      { message := "API error (503): Service overloaded", code := none,
        type := .unknown } ∧
    AIService.handleError (.typeError "fetch failed") =
      { message := "Network error: Unable to reach the AI service. Check your connection and endpoint.",
        code := some "NETWORK_ERROR", type := .network } ∧
    AIService.handleError (.typeError "boom") =
      { message := "Unexpected error: boom", code := none, type := .unknown } :=
  ⟨(C3_handleError_classification.2.2.2.1 503 "Service overloaded" none
      (by decide) (by decide) (by decide)).trans (by rfl),
   C3_handleError_classification.2.2.2.2.1 "fetch failed" (by rfl),
   C3_handleError_classification.2.2.2.2.2.1 "boom" (by rfl)⟩

/-- C4: for every completion reply, present-and-parseable text is returned
parsed and unchanged; present-but-unparseable text is returned as the
`{raw: <original text>}` wrapper without raising; absent (or empty, which
`!content` also treats as absent) text raises a classified error of kind
`unknown`. -/
theorem C4_response_handling (parse : String → Option Json) :
    (∀ resp content j, AIService.contentOf resp = some content →
      content ≠ "" → parse content = some j →
      AIService.generatePlan parse (.ok resp) = .ok j) ∧
    (∀ resp content, AIService.contentOf resp = some content →
      content ≠ "" → parse content = none →
      AIService.generatePlan parse (.ok resp) =
        .ok (Json.obj [("raw", Json.str content)])) ∧
    (∀ resp, AIService.contentOf resp = none ∨
        AIService.contentOf resp = some "" →
      ∃ err, AIService.generatePlan parse (.ok resp) = .error err ∧
        err.type = .unknown) := by
  refine ⟨?_, ?_, ?_⟩
  · intro resp content j h1 h2 h3
    have hb : (content != "") = true := bne_iff_ne.mpr h2
    simp only [AIService.generatePlan, h1, hb, if_true, h3]
  · intro resp content h1 h2 h3
    have hb : (content != "") = true := bne_iff_ne.mpr h2
    simp only [AIService.generatePlan, h1, hb, if_true, h3]
  · intro resp h
    rcases h with h | h
    · refine ⟨AIService.handleError (.plainValue (AIService.jsStringOfAIError
        (AIService.createError "No response content received from AI service"))),
        ?_, rfl⟩
      simp only [AIService.generatePlan, h]
    · refine ⟨AIService.handleError (.plainValue (AIService.jsStringOfAIError
        (AIService.createError "No response content received from AI service"))),
        ?_, rfl⟩
      simp only [AIService.generatePlan, h, bne_self_eq_false,
        Bool.false_eq_true, if_false]

/-- Witness for C4: a parseable reply, an unparseable reply, and a reply
with no choices. -/
theorem C4_response_witness :
    AIService.generatePlan (fun _ => some (Json.num 1))
        (.ok { choices := [{ message := some { content := some "1" } }] }) =
      .ok (Json.num 1) ∧
    AIService.generatePlan (fun _ => none)
        (.ok { choices := [{ message := some { content := some "not json" } }] }) =
      .ok (Json.obj [("raw", Json.str "not json")]) ∧
    errTypeOf (AIService.generatePlan (fun _ => none) (.ok { choices := [] })) =
      some .unknown := by
  refine ⟨(C4_response_handling (fun _ => some (Json.num 1))).1
      { choices := [{ message := some { content := some "1" } }] }
      "1" (Json.num 1) rfl (by decide) rfl,
    (C4_response_handling (fun _ => none)).2.1
      { choices := [{ message := some { content := some "not json" } }] }
      "not json" rfl (by decide) rfl, ?_⟩
  obtain ⟨err, he, ht⟩ := (C4_response_handling (fun _ => none)).2.2
    { choices := [] } (Or.inl rfl)
  rw [he, errTypeOf, ht]

theorem parsePlanResponse_ok_shape (genId : Nat → String) (task : String)
    (response : Json) (now : Nat) (p : Plan)
    (h : parsePlanResponse genId task response now = .ok p) :
    p.id = genId 0 ∧ p.task = task ∧ p.createdAt = now ∧
      p.status ≠ .failed := by
  cases hb : (jsTruthy response && jsTypeofObject response &&
      jsHasProp response "steps") with
  | false =>
      simp only [parsePlanResponse, hb, Bool.false_eq_true, if_false] at h
      injection h with h2
      subst h2
      exact ⟨rfl, rfl, rfl, fun hx => PlanStatus.noConfusion hx⟩
  | true =>
      simp only [parsePlanResponse, hb, if_true] at h
      cases hie : iterElems ((jsGetProp response "steps").getD .null) with
      | error e =>
          rw [hie] at h
          simp at h
      | ok elems =>
          rw [hie] at h
          simp only [] at h
          injection h with h2
          subst h2
          refine ⟨rfl, rfl, rfl, ?_⟩
          by_cases hl :
              (buildStepsAux genId elems 0 1).length > 0
          · simp [hl]
          · simp [hl]

/-- C2: the orchestrator never propagates an exception: whenever the
completion stage raises a classified error or the normalization stage
raises, it returns a plan with a fresh id, the original task verbatim,
empty steps, the current timestamp and status `failed`; consequently a
returned plan with status `failed` always has empty steps, and the
returned plan's task is always the original task. Context gathering and
prompt building are total in the embedding, mirroring the source's
internal error swallowing. -/
theorem C2_generatePlan_failure_containment (genId : Nat → String)
    (task : String) (options : Option PlanOptions) (env : Workspace)
    (parse : String → Option Json)
    (outcome : Except JsError AIService.CompletionResponse) (now : Nat) :
    (∀ e, AIService.generatePlan parse outcome = .error e →
      PlanService.generatePlan genId task options env parse outcome now =
        { id := genId 0, task := task, steps := [], createdAt := now,
          status := .failed }) ∧
    (∀ r, AIService.generatePlan parse outcome = .ok r →
      parsePlanResponse genId task r now = .error () →
      PlanService.generatePlan genId task options env parse outcome now =
        { id := genId 0, task := task, steps := [], createdAt := now,
          status := .failed }) ∧
    ((PlanService.generatePlan genId task options env parse outcome
        now).status = .failed →
      (PlanService.generatePlan genId task options env parse outcome
        now).steps = []) ∧
    (PlanService.generatePlan genId task options env parse outcome
        now).task = task := by
  cases hai : AIService.generatePlan parse outcome with
  | error e =>
      refine ⟨fun e2 h2 => ?_, fun r hr => ?_, fun _ => ?_, ?_⟩
      · simp only [PlanService.generatePlan, hai]
      · simp at hr
      · simp only [PlanService.generatePlan, hai]
      · simp only [PlanService.generatePlan, hai]
  | ok r =>
      cases hp : parsePlanResponse genId task r now with
      | error u =>
          refine ⟨fun e2 h2 => ?_, fun r2 hr2 hp2 => ?_, fun _ => ?_, ?_⟩
          · simp at h2
          · simp only [PlanService.generatePlan, hai, hp]
          · simp only [PlanService.generatePlan, hai, hp]
          · simp only [PlanService.generatePlan, hai, hp]
      | ok p =>
          have hshape := parsePlanResponse_ok_shape genId task r now p hp
          refine ⟨fun e2 h2 => ?_, fun r2 hr2 hp2 => ?_, fun hf => ?_, ?_⟩
          · simp at h2
          · injection hr2 with hr3
            rw [← hr3] at hp2
            rw [hp] at hp2
            simp at hp2
          · have hres : PlanService.generatePlan genId task options env parse
                outcome now = p := by
              simp only [PlanService.generatePlan, hai, hp]
            rw [hres] at hf
            exact absurd hf hshape.2.2.2
          · have hres : PlanService.generatePlan genId task options env parse
                outcome now = p := by
              simp only [PlanService.generatePlan, hai, hp]
            rw [hres]
            exact hshape.2.1

/-- Witness for C2 at a rate-limited completion outcome. -/
theorem C2_failure_witness :
    PlanService.generatePlan genIdDefault "my task" none
        { rootPath := none, activeEditor := none, readDir := .error (),
          readPackageJson := .error () }
        (fun _ => none) (.error (.apiError 429 "Too many requests" none)) 7 =
      { id := "0", task := "my task", steps := [], createdAt := 7,
        status := .failed } :=
  (C2_generatePlan_failure_containment genIdDefault "my task" none
      { rootPath := none, activeEditor := none, readDir := .error (),
        readPackageJson := .error () }
      (fun _ => none) (.error (.apiError 429 "Too many requests" none)) 7).1
    (AIService.handleError (.apiError 429 "Too many requests" none)) rfl

/-- C6 counterexample: the tech-stack label is NOT computed over the merged
key set — a manifest whose `react` dependency has the empty version string
puts `react` in the merged key set (so the spec's first-match-over-key-set
rule yields "React"), yet `detectTechStack` skips it because the check
`allDeps.react` tests the version string's truthiness, yielding the
fallback label. -/
theorem C6_counterexample_empty_version :
    detectTechStack (Json.obj [("dependencies",
        Json.obj [("react", Json.str "")])]) = "JavaScript/TypeScript" ∧
    mergedHasKey (Json.obj [("dependencies",
        Json.obj [("react", Json.str "")])]) "react" = true ∧
    firstMatchLabel (mergedHasKey (Json.obj [("dependencies",
        Json.obj [("react", Json.str "")])])) stackTable = "React" :=
  ⟨rfl, rfl, rfl⟩

/-- C6 amended: the tech-stack label is the first match of the fixed
priority table `react, vue, angular|@angular/core, svelte, next, node,
express, nest, typescript, storybook` over the merged dependency object,
where a package counts as present only when its merged version value is
truthy (non-empty, for version strings), with devDependencies overriding
dependencies in the merge; `"JavaScript/TypeScript"` when none match. In
particular a manifest with truthy `react` and `vue` versions yields
`"React"`. -/
theorem C6_detectTechStack_priority (pkgJson : Json) :
    detectTechStack pkgJson =
      firstMatchLabel (propTruthy (mkMergedDeps pkgJson)) stackTable ∧
    detectTechStack (Json.obj [("dependencies",
        Json.obj [("react", Json.str "^18.2.0"),
                  ("vue", Json.str "^3.4.0")])]) = "React" := by
  refine ⟨?_, rfl⟩
  simp only [detectTechStack, firstMatchLabel, stackTable, List.any_cons,
    List.any_nil, Bool.or_false]

/-- C7: whenever the context carries a truthy dependencies map, the built
prompt's dependency line lists exactly the first 10 `Object.keys` names
(names only, versions omitted) joined by ", ", followed by "..." exactly
when more than 10 entries exist, then the blank-line separator. -/
theorem C7_dependency_truncation (task : String) (ctx : Context)
    (d : DepsInfo) (v : Json) (hd : ctx.dependencies = some d)
    (hv : d.dependencies = some v) (ht : jsTruthy v = true) :
    buildPrompt task ctx =
      taskSection task ++ (activeFileSection ctx ++ (techStackSection ctx ++
        ("Dependencies: " ++
          String.intercalate ", " ((jsObjectKeys v).take 10) ++
          (if (jsObjectKeys v).length > 10 then "..." else "") ++
          "\n\n"))) := by
  simp only [buildPrompt, depsSection, hd, hv, ht, if_true]

/-- Witness for C7 with an 11-entry and a 3-entry dependency map. -/
theorem C7_truncation_witness :
    buildPrompt "t"
      { workspaceRoot := none,
        dependencies := some { dependencies := some (Json.obj
          [("a1", Json.str "1"), ("a2", Json.str "1"), ("a3", Json.str "1"),
           ("a4", Json.str "1"), ("a5", Json.str "1"), ("a6", Json.str "1"),
           ("a7", Json.str "1"), ("a8", Json.str "1"), ("a9", Json.str "1"),
           ("a10", Json.str "1"), ("a11", Json.str "1")]) } } =
      "Task: t\n\nDependencies: a1, a2, a3, a4, a5, a6, a7, a8, a9, a10...\n\n" ∧
    buildPrompt "t"
      { workspaceRoot := none,
        dependencies := some { dependencies := some (Json.obj
          [("a1", Json.str "1"), ("a2", Json.str "1"),
           ("a3", Json.str "1")]) } } =
      "Task: t\n\nDependencies: a1, a2, a3\n\n" :=
  ⟨(C7_dependency_truncation "t"
      { workspaceRoot := none,
        dependencies := some { dependencies := some (Json.obj
          [("a1", Json.str "1"), ("a2", Json.str "1"), ("a3", Json.str "1"),
           ("a4", Json.str "1"), ("a5", Json.str "1"), ("a6", Json.str "1"),
           ("a7", Json.str "1"), ("a8", Json.str "1"), ("a9", Json.str "1"),
           ("a10", Json.str "1"), ("a11", Json.str "1")]) } }
      { dependencies := some (Json.obj
          [("a1", Json.str "1"), ("a2", Json.str "1"), ("a3", Json.str "1"),
           ("a4", Json.str "1"), ("a5", Json.str "1"), ("a6", Json.str "1"),
           ("a7", Json.str "1"), ("a8", Json.str "1"), ("a9", Json.str "1"),
           ("a10", Json.str "1"), ("a11", Json.str "1")]) }
      (Json.obj
          [("a1", Json.str "1"), ("a2", Json.str "1"), ("a3", Json.str "1"),
           ("a4", Json.str "1"), ("a5", Json.str "1"), ("a6", Json.str "1"),
           ("a7", Json.str "1"), ("a8", Json.str "1"), ("a9", Json.str "1"),
           ("a10", Json.str "1"), ("a11", Json.str "1")])
      rfl rfl rfl).trans (by rfl),
   (C7_dependency_truncation "t"
      { workspaceRoot := none,
        dependencies := some { dependencies := some (Json.obj
          [("a1", Json.str "1"), ("a2", Json.str "1"),
           ("a3", Json.str "1")]) } }
      { dependencies := some (Json.obj
          [("a1", Json.str "1"), ("a2", Json.str "1"),
           ("a3", Json.str "1")]) }
      (Json.obj
          [("a1", Json.str "1"), ("a2", Json.str "1"),
           ("a3", Json.str "1")])
      rfl rfl rfl).trans (by rfl)⟩

/-- C10: when the context's dependencies field is present with an empty
inner dependencies object (always truthy), the prompt still emits a
"Dependencies: " line with an empty name list rather than omitting the
section; and `gatherContext` produces exactly that shape from a manifest
lacking a `dependencies` key (the `|| {}` default). -/
theorem C10_empty_dependency_line (task : String) (ctx : Context)
    (d : DepsInfo) (hd : ctx.dependencies = some d)
    (hv : d.dependencies = some (Json.obj [])) :
    buildPrompt task ctx =
      taskSection task ++ (activeFileSection ctx ++ (techStackSection ctx ++
        "Dependencies: \n\n")) ∧
    (∀ (task2 : String) (options : Option PlanOptions) (env : Workspace)
        (parse : String → Option Json) (text r : String)
        (fields : List (String × Json)),
      getOpt options PlanOptions.includeDependencies = true →
      env.rootPath = some r →
      env.readPackageJson = .ok text →
      parse text = some (Json.obj fields) →
      List.lookup "dependencies" fields = none →
      ((gatherContext task2 options env parse).dependencies).bind
        DepsInfo.dependencies = some (Json.obj [])) := by
  constructor
  · simp only [buildPrompt, depsSection, hd, hv, jsTruthy, if_true]
    rfl
  · intro task2 options env parse text r fields hopt hroot hread hparse hdep
    simp only [gatherContext, hopt, if_true, hroot, hread, hparse, depsOfPkg,
      jsGetProp, hdep, Option.bind]

/-- Witness for C10: a concrete context with an empty dependencies map and
a concrete workspace whose manifest has only `devDependencies`. -/
theorem C10_empty_line_witness :
    buildPrompt "t"
      { workspaceRoot := none,
        dependencies := some { dependencies := some (Json.obj []),
                               devDependencies := some (Json.obj []) } } =
      "Task: t\n\nDependencies: \n\n" ∧
    ((gatherContext "t" (some { includeDependencies := true })
        { rootPath := some "/w", activeEditor := none, readDir := .error (),
          readPackageJson := .ok "pkg" }
        (fun _ => some (Json.obj [("devDependencies", Json.obj [])]))).dependencies).bind
      DepsInfo.dependencies = some (Json.obj []) :=
  ⟨((C10_empty_dependency_line "t"
      { workspaceRoot := none,
        dependencies := some { dependencies := some (Json.obj []),
                               devDependencies := some (Json.obj []) } }
      { dependencies := some (Json.obj []),
        devDependencies := some (Json.obj []) } rfl rfl).1).trans (by rfl),
   (C10_empty_dependency_line "t"
      { workspaceRoot := none,
        dependencies := some { dependencies := some (Json.obj []),
                               devDependencies := some (Json.obj []) } }
      { dependencies := some (Json.obj []),
        devDependencies := some (Json.obj []) } rfl rfl).2
     "t" (some { includeDependencies := true })
     { rootPath := some "/w", activeEditor := none, readDir := .error (),
       readPackageJson := .ok "pkg" }
     (fun _ => some (Json.obj [("devDependencies", Json.obj [])]))
     "pkg" "/w" [("devDependencies", Json.obj [])] rfl rfl rfl rfl rfl⟩

theorem gatherContext_eq (task : String) (options : Option PlanOptions)
    (env : Workspace) (parse : String → Option Json) :
    gatherContext task options env parse =
      { workspaceRoot := env.rootPath,
        activeFile :=
          if getOpt options PlanOptions.includeActiveFile then
            env.activeEditor
          else none,
        workspaceStructure :=
          if getOpt options PlanOptions.includeWorkspaceStructure then
            some (getWorkspaceStructure env)
          else none,
        techStack :=
          if getOpt options PlanOptions.includeDependencies then
            (depOutcome env parse).map (fun pr => pr.2)
          else none,
        dependencies :=
          if getOpt options PlanOptions.includeDependencies then
            (depOutcome env parse).map (fun pr => pr.1)
          else none } := by
  obtain ⟨root, editor, rd, rp⟩ := env
  cases options with
  | none => cases root <;> cases editor <;> rfl
  | some o =>
      obtain ⟨a, w, d⟩ := o
      cases d with
      | false => cases a <;> cases w <;> cases root <;> cases editor <;> rfl
      | true =>
          cases root with
          | none => cases a <;> cases w <;> cases editor <;> rfl
          | some r =>
              cases rp with
              | error u => cases a <;> cases w <;> cases editor <;> rfl
              | ok text =>
                  cases hQ : parse text with
                  | none =>
                      cases a <;> cases w <;> cases editor <;>
                        simp only [gatherContext, depOutcome, getOpt, hQ] <;>
                        rfl
                  | some pkgJson =>
                      cases hS : depsOfPkg pkgJson with
                      | error u =>
                          cases a <;> cases w <;> cases editor <;>
                            simp only [gatherContext, depOutcome, getOpt, hQ,
                              hS] <;> rfl
                      | ok pr =>
                          cases a <;> cases w <;> cases editor <;>
                            simp only [gatherContext, depOutcome, getOpt, hQ,
                              hS] <;> rfl

/-- C8: `gatherContext` is total (no exception escapes, by construction of
the embedding); an unreadable or unparseable manifest leaves both
`dependencies` and `techStack` absent while a requested
`workspaceStructure` stays correctly populated (degrading to `[]` on
enumeration failure); an absent option leaves the corresponding field
absent; and `workspaceRoot` mirrors the workspace collaborator. -/
theorem C8_gatherContext_resilience (task : String)
    (options : Option PlanOptions) (env : Workspace)
    (parse : String → Option Json) :
    (env.readPackageJson = .error () →
      (gatherContext task options env parse).dependencies = none ∧
      (gatherContext task options env parse).techStack = none) ∧
    (∀ text, env.readPackageJson = .ok text → parse text = none →
      (gatherContext task options env parse).dependencies = none ∧
      (gatherContext task options env parse).techStack = none) ∧
    (getOpt options PlanOptions.includeWorkspaceStructure = true →
      (gatherContext task options env parse).workspaceStructure =
        some (getWorkspaceStructure env)) ∧
    (env.readDir = .error () → getWorkspaceStructure env = []) ∧
    (getOpt options PlanOptions.includeActiveFile = false →
      (gatherContext task options env parse).activeFile = none) ∧
    (getOpt options PlanOptions.includeWorkspaceStructure = false →
      (gatherContext task options env parse).workspaceStructure = none) ∧
    (getOpt options PlanOptions.includeDependencies = false →
      (gatherContext task options env parse).dependencies = none ∧
      (gatherContext task options env parse).techStack = none) ∧
    (gatherContext task options env parse).workspaceRoot = env.rootPath := by
  rw [gatherContext_eq]
  refine ⟨?_, ?_, ?_, ?_, ?_, ?_, ?_, rfl⟩
  · intro h
    have hdo : depOutcome env parse = none := by
      unfold depOutcome
      cases hR : env.rootPath with
      | none => rfl
      | some r => rw [h]
    simp [hdo]
  · intro text h1 h2
    have hdo : depOutcome env parse = none := by
      unfold depOutcome
      cases hR : env.rootPath with
      | none => rfl
      | some r =>
          rw [h1]
          simp only [h2]
    simp [hdo]
  · intro h
    simp [h]
  · intro h
    unfold getWorkspaceStructure
    cases hR : env.rootPath with
    | none => rfl
    | some r => rw [h]
  · intro h
    simp [h]
  · intro h
    simp [h]
  · intro h
    simp [h]

/-- Witness for C8: manifest read fails, workspace structure requested and
populated from the listing, active file not requested. -/
theorem C8_resilience_witness :
    (gatherContext "t"
      (some { includeWorkspaceStructure := true, includeDependencies := true })
      { rootPath := some "/w", activeEditor := none,
        readDir := .ok [("src", FsEntryType.directory),
                        ("README.md", FsEntryType.file)],
        readPackageJson := .error () }
      (fun _ => none)).dependencies = none ∧
    (gatherContext "t"
      (some { includeWorkspaceStructure := true, includeDependencies := true })
      { rootPath := some "/w", activeEditor := none,
        readDir := .ok [("src", FsEntryType.directory),
                        ("README.md", FsEntryType.file)],
        readPackageJson := .error () }
      (fun _ => none)).techStack = none ∧
    (gatherContext "t"
      (some { includeWorkspaceStructure := true, includeDependencies := true })
      { rootPath := some "/w", activeEditor := none,
        readDir := .ok [("src", FsEntryType.directory),
                        ("README.md", FsEntryType.file)],
        readPackageJson := .error () }
      (fun _ => none)).workspaceStructure = some ["src"] := by
  have h := C8_gatherContext_resilience "t"
    (some { includeWorkspaceStructure := true, includeDependencies := true })
    { rootPath := some "/w", activeEditor := none,
      readDir := .ok [("src", FsEntryType.directory),
                      ("README.md", FsEntryType.file)],
      readPackageJson := .error () }
    (fun _ => none)
  exact ⟨(h.1 rfl).1, (h.1 rfl).2, (h.2.2.1 rfl).trans (by rfl)⟩
